import Mathlib

/-!
Shallow embedding of the `uvcclient` Unifi Video NVR client
(`src/uvcclient/nvr.py` and `src/uvcclient/main.py`), together with
theorems settling the frozen claims about it.

Conventions of the embedding:
* JSON settings groups become Lean structures with the source field names.
* A getter takes the camera record that its initial GET returns and computes
  the decoded value; a setter additionally returns the list of HTTP requests
  it issued (so that request-count and PUT-body properties can be stated)
  and is parameterised by `put`, the server's response to the PUT.
* Python exceptions become `Except String` (the message is the one raised);
  an uncaught crash in a parsing routine becomes `Option.none`.
* Python 3 `/` on integers is true division; it is embedded as division in
  `Rat`, which is exact on the integer inputs that occur here.
* Python's `==` between values of different runtime types (a response dict
  against a boolean, as in `set_enablestatusled`) is embedded by injecting
  both sides into the dynamic-value sum `PyVal` and comparing there.
-/

namespace Uvcclient

/-- The `ispSettings` group of a camera resource (`nvr.py`, used by the
image-processing getters and setters). Only the fields the claims touch
are carried. -/
structure IspSettings where
  brightness : Int
  enableExternalIr : Int
  lensDistortionCorrection : Int
  aemode : String
  aggressiveAntiFlicker : Int
  flip : Int
  mirror : Int
  icrSensitivity : Int
  irLedMode : String
  irLedLevel : Int
deriving DecidableEq

/-- The `recordingSettings` group of a camera resource. -/
structure RecordingSettings where
  fullTimeRecordEnabled : Bool
  motionRecordEnabled : Bool
  channel : Int
  prePaddingSecs : Int
  postPaddingSecs : Int
deriving DecidableEq

/-- The `osdSettings` group of a camera resource. -/
structure OsdSettings where
  enableDate : Int
  enableLogo : Int
deriving DecidableEq

/-- A camera resource as returned under `data[0]` by
`GET /api/2.0/camera/{id}` (the fields the claims touch). -/
structure CameraResource where
  name : String
  uuid : String
  _id : String
  state : String
  managed : Bool
  deleted : Bool
  enableStatusLed : Bool
  ispSettings : IspSettings
  recordingSettings : RecordingSettings
  osdSettings : OsdSettings
deriving DecidableEq

/-- An HTTP request issued by the client: a GET of a path, or a PUT of a
path carrying a camera resource as its JSON body. -/
inductive HttpReq where
  | get : String → HttpReq
  | put : String → CameraResource → HttpReq
deriving DecidableEq

/-- The errors `_uvc_request_safe` raises on a bad status code
(`nvr.py` lines 132-135). -/
inductive UvcError where
  | notAuthorized : String → UvcError
  | nvrError : String → UvcError
deriving DecidableEq

/-- The status-code check of `_uvc_request_safe` (`nvr.py` lines 132-135):
401/403 raise `NotAuthorized`; then `resp.status / 100 != 2` raises
`NvrError('Request failed: %s' % resp.status)`. Under Python 3, `/` is true
division, embedded exactly as division in `Rat`. -/
def statusCheck (status : Nat) : Except UvcError Unit :=
  if status == 401 || status == 403 then
    .error (.notAuthorized "NVR reported authorization failure")
  else if (status : Rat) / 100 ≠ 2 then
    .error (.nvrError ("Request failed: " ++ toString status))
  else
    .ok ()

/-- The URL `'/api/2.0/camera/%s' % uuid` every getter and setter uses. -/
def cameraUrl (uuid : String) : String := "/api/2.0/camera/" ++ uuid

/-- The parsed JSON response of a camera endpoint: `{'data': [camera]}`. -/
structure UvcResponse where
  data : List CameraResource
deriving DecidableEq

/-- Dynamic (Python) values, for the source lines that compare values of
different runtime types with `==`: a response dict never equals a boolean. -/
inductive PyVal where
  | vbool : Bool → PyVal
  | vresp : UvcResponse → PyVal
deriving DecidableEq

/-- Python `s.lower()` (ASCII range, which is all the client compares). -/
def pyLower (s : String) : String := String.mk (s.data.map Char.toLower)

/-- Python `s.split(sep)` for a one-character separator: splits at every
occurrence and keeps empty pieces, so the result is never empty. -/
def pySplitChar (sep : Char) (s : String) : List String :=
  (s.data.foldr
    (fun c acc =>
      match acc with
      | [] => [[c]]
      | h :: t => if c = sep then [] :: h :: t else (c :: h) :: t)
    [[]]).map String.mk

/-- Python `s.strip()` on the character list of a string. -/
def pyTrim (l : List Char) : List Char :=
  ((l.dropWhile Char.isWhitespace).reverse.dropWhile Char.isWhitespace).reverse

/-- `get_externalirmode` (`nvr.py` 285-294). `cam` is the camera record
returned under `data[0]` by the method's initial GET. -/
def get_externalirmode (cam : CameraResource) : String :=
  let camerasettings := cam.ispSettings
  if camerasettings.enableExternalIr = 0 then "off"
  else if camerasettings.enableExternalIr = 1 then "on"
  else "unknown"

/-- `get_showosddatemode` (`nvr.py` 318-327). -/
def get_showosddatemode (cam : CameraResource) : String :=
  let camerasettings := cam.osdSettings
  if camerasettings.enableDate = 0 then "off"
  else if camerasettings.enableDate = 1 then "on"
  else "unknown"

/-- `get_showosdlogomode` (`nvr.py` 351-360). -/
def get_showosdlogomode (cam : CameraResource) : String :=
  let camerasettings := cam.osdSettings
  if camerasettings.enableLogo = 0 then "off"
  else if camerasettings.enableLogo = 1 then "on"
  else "unknown"

/-- `get_lensdistortioncorrectionmode` (`nvr.py` 670-679). -/
def get_lensdistortioncorrectionmode (cam : CameraResource) : String :=
  let camerasettings := cam.ispSettings
  if camerasettings.lensDistortionCorrection = 0 then "off"
  else if camerasettings.lensDistortionCorrection = 1 then "on"
  else "unknown"

/-- `get_aemode` (`nvr.py` 703-714). -/
def get_aemode (cam : CameraResource) : String :=
  let camerasettings := cam.ispSettings
  if camerasettings.aemode = "auto" then "normal"
  else if camerasettings.aemode = "flick50" then "anti-flicker for 50hz light"
  else if camerasettings.aemode = "flick60" then "anti-flicker for 60hz light"
  else "unknown"

/-- `get_aggressiveantiflicker` (`nvr.py` 740-749). -/
def get_aggressiveantiflicker (cam : CameraResource) : String :=
  let camerasettings := cam.ispSettings
  if camerasettings.aggressiveAntiFlicker = 0 then "disabled"
  else if camerasettings.aggressiveAntiFlicker = 1 then "enabled"
  else "unknown"

/-- `get_orientation` (`nvr.py` 775-792). -/
def get_orientation (cam : CameraResource) : String :=
  let camerasettings := cam.ispSettings
  if camerasettings.flip = 0 ∧ camerasettings.mirror = 0 then "normal"
  else if camerasettings.flip = 0 ∧ camerasettings.mirror = 1 then
    "flip horizontally"
  else if camerasettings.flip = 1 ∧ camerasettings.mirror = 0 then
    "flip vertically"
  else if camerasettings.flip = 1 ∧ camerasettings.mirror = 1 then
    "flip both horizontally and vertically"
  else "unknown"

/-- `get_irsensitivity` (`nvr.py` 794-805). -/
def get_irsensitivity (cam : CameraResource) : String :=
  let camerasettings := cam.ispSettings
  if camerasettings.icrSensitivity = 0 then "low"
  else if camerasettings.icrSensitivity = 1 then "medium"
  else if camerasettings.icrSensitivity = 2 then "high"
  else "unknown"

/-- `get_irledmode` (`nvr.py` 831-844). -/
def get_irledmode (cam : CameraResource) : String :=
  let irledmodes := cam.ispSettings
  if irledmodes.irLedMode = "auto" then "auto"
  else if irledmodes.irLedMode = "manual" ∧ irledmodes.irLedLevel = 0 then
    "off"
  else if irledmodes.irLedMode = "manual" ∧ 0 < irledmodes.irLedLevel then
    "on"
  else "unknown"

/-- `get_recordmode` (`nvr.py` 927-936). -/
def get_recordmode (cam : CameraResource) : String :=
  let recmodes := cam.recordingSettings
  if recmodes.fullTimeRecordEnabled then "full"
  else if recmodes.motionRecordEnabled then "motion"
  else "none"

/-- `get_enablestatusled` (`nvr.py` 972-975). -/
def get_enablestatusled (cam : CameraResource) : Bool :=
  cam.enableStatusLed

/-- `get_brightness` (`nvr.py` 384-388). -/
def get_brightness (cam : CameraResource) : Int :=
  cam.ispSettings.brightness

/-- `set_externalirmode` (`nvr.py` 296-316). `cam` is the record the
initial GET returns; `put` is the server's camera record in the PUT
response. The second component lists the HTTP requests issued; raising
`Invalid('Unknown mode')` becomes `Except.error "Unknown mode"` and skips
the PUT, exactly as the raise does in the source. -/
def set_externalirmode (put : CameraResource → CameraResource)
    (cam : CameraResource) (uuid mode : String) :
    Except String Bool × List HttpReq :=
  let url := cameraUrl uuid
  let settings := cam.ispSettings
  let mode := pyLower mode
  let enc : Except String IspSettings :=
    if mode = "off" then .ok { settings with enableExternalIr := 0 }
    else if mode = "on" then .ok { settings with enableExternalIr := 1 }
    else .error "Unknown mode"
  match enc with
  | .error e => (.error e, [.get url])
  | .ok settings =>
      let body := { cam with ispSettings := settings }
      let updated := (put body).ispSettings
      (.ok (settings == updated), [.get url, .put url body])

/-- `set_irsensitivity` (`nvr.py` 807-829). -/
def set_irsensitivity (put : CameraResource → CameraResource)
    (cam : CameraResource) (uuid level : String) :
    Except String Bool × List HttpReq :=
  let url := cameraUrl uuid
  let settings := cam.ispSettings
  let level := pyLower level
  let enc : Except String IspSettings :=
    if level = "low" then .ok { settings with icrSensitivity := 0 }
    else if level = "medium" then .ok { settings with icrSensitivity := 1 }
    else if level = "high" then .ok { settings with icrSensitivity := 2 }
    else .error "Unknown mode"
  match enc with
  | .error e => (.error e, [.get url])
  | .ok settings =>
      let body := { cam with ispSettings := settings }
      let updated := (put body).ispSettings
      (.ok (settings == updated), [.get url, .put url body])

/-- `set_irledmode` (`nvr.py` 846-871). -/
def set_irledmode (put : CameraResource → CameraResource)
    (cam : CameraResource) (uuid mode : String) :
    Except String Bool × List HttpReq :=
  let url := cameraUrl uuid
  let settings := cam.ispSettings
  let mode := pyLower mode
  let enc : Except String IspSettings :=
    if mode = "off" then
      .ok { settings with irLedLevel := 0, irLedMode := "manual" }
    else if mode = "on" then
      .ok { settings with irLedLevel := 215, irLedMode := "manual" }
    else if mode = "auto" then
      .ok { settings with irLedLevel := 215, irLedMode := "auto" }
    else .error "Unknown mode"
  match enc with
  | .error e => (.error e, [.get url])
  | .ok settings =>
      let body := { cam with ispSettings := settings }
      let updated := (put body).ispSettings
      (.ok (settings == updated), [.get url, .put url body])

/-- `CHANNEL_NAMES` (`nvr.py` 54). -/
def CHANNEL_NAMES : List String := ["high", "medium", "low"]

/-- `set_recordmode` (`nvr.py` 938-970). The method first calls
`self.dump(uuid)`, which issues its own GET of the same camera, hence the
two leading GETs in the request trace. `chan = none` embeds Python
`chan=None` (and the falsy empty string); an unknown channel name makes
`CHANNEL_NAMES.index(chan)` raise `ValueError`, which the source does not
catch. -/
def set_recordmode (put : CameraResource → CameraResource)
    (cam : CameraResource) (uuid mode : String) (chan : Option String) :
    Except String Bool × List HttpReq :=
  let url := cameraUrl uuid
  let settings := cam.recordingSettings
  let mode := pyLower mode
  let enc : Except String RecordingSettings :=
    if mode = "none" then
      .ok { settings with fullTimeRecordEnabled := false,
                          motionRecordEnabled := false }
    else if mode = "full" then
      .ok { settings with fullTimeRecordEnabled := true,
                          motionRecordEnabled := false }
    else if mode = "motion" then
      .ok { settings with fullTimeRecordEnabled := false,
                          motionRecordEnabled := true }
    else .error "Unknown mode"
  match enc with
  | .error e => (.error e, [.get url, .get url])
  | .ok settings =>
      match chan with
      | none =>
          let body := { cam with recordingSettings := settings }
          (.ok (settings == (put body).recordingSettings),
           [.get url, .get url, .put url body])
      | some c =>
          match CHANNEL_NAMES.findIdx? (fun n => n == c) with
          | none => (.error "ValueError", [.get url, .get url])
          | some i =>
              let settings := { settings with channel := (i : Int) }
              let body := { cam with recordingSettings := settings }
              (.ok (settings == (put body).recordingSettings),
               [.get url, .get url, .put url body])

/-- `set_enablestatusled` (`nvr.py` 977-990). The source's final line is
`return data == updated`, comparing the whole PUT-response dict `data`
against the boolean `updated`; both sides are injected into `PyVal`. -/
def set_enablestatusled (put : CameraResource → CameraResource)
    (cam : CameraResource) (uuid state : String) :
    Except String Bool × List HttpReq :=
  let url := cameraUrl uuid
  let state := pyLower state
  let enc : Except String CameraResource :=
    if state = "true" then .ok { cam with enableStatusLed := true }
    else if state = "false" then .ok { cam with enableStatusLed := false }
    else .error "Unknown mode"
  match enc with
  | .error e => (.error e, [.get url])
  | .ok body =>
      let data := UvcResponse.mk [put body]
      let updated := (put body).enableStatusLed
      (.ok (PyVal.vresp data == PyVal.vbool updated),
       [.get url, .put url body])

/-- `set_brightness` (`nvr.py` 390-404). The source computes `updated`
and then falls off the end of the function, returning `None`; the result
is therefore the constant `Option.none`. -/
def set_brightness (put : CameraResource → CameraResource)
    (cam : CameraResource) (uuid : String) (level : Int) :
    Option Bool × List HttpReq :=
  let url := cameraUrl uuid
  let settings := { cam.ispSettings with brightness := level }
  let body := { cam with ispSettings := settings }
  let _updated := (put body).ispSettings
  (none, [.get url, .put url body])

/-- Python `int(s)` on a decimal string: optional surrounding whitespace
and sign, then at least one digit; anything else raises `ValueError`,
embedded as `none`. -/
def pyInt (s : String) : Option Int :=
  let t := pyTrim s.data
  let (sign, digits) :=
    match t with
    | '-' :: rest => ((-1 : Int), rest)
    | '+' :: rest => ((1 : Int), rest)
    | _ => ((1 : Int), t)
  if digits ≠ [] ∧ digits.all Char.isDigit then
    some (sign *
      (digits.foldl (fun acc c => acc * 10 + (c.toNat - 48)) (0 : Nat) : Nat))
  else none

/-- The component phase of `server_version` (`nvr.py` 69-78) applied to
`version = versionString.split('.')`. `none` is an uncaught exception:
`ValueError` from `int()` on the major or minor component (or a missing
minor component), or `IndexError` when there is no third component —
`version[2]` sits inside a `try` that only catches `ValueError`. A
present but non-numeric third component is the caught `ValueError`, so
`rev` defaults to 0. -/
def parseVersionComponents (version : List String) :
    Option (Int × Int × Int) :=
  match version[0]? with
  | none => none
  | some c0 =>
    match pyInt c0 with
    | none => none
    | some major =>
      match version[1]? with
      | none => none
      | some c1 =>
        match pyInt c1 with
        | none => none
        | some minor =>
          match version[2]? with
          | none => none
          | some c2 => some (major, minor, (pyInt c2).getD 0)

/-- `server_version` (`nvr.py` 69-78) on the bootstrap
`systemInfo.version` string. -/
def server_version (versionString : String) : Option (Int × Int × Int) :=
  parseVersionComponents (pySplitChar '.' versionString)

/-- Python tuple comparison `v >= w` on 3-tuples: lexicographic. -/
def versionGE (v w : Int × Int × Int) : Bool :=
  decide (w.1 < v.1 ∨ (v.1 = w.1 ∧
    (w.2.1 < v.2.1 ∨ (v.2.1 = w.2.1 ∧ w.2.2 ≤ v.2.2))))

/-- `camera_identifier` (`nvr.py` 80-85): `'id'` when
`self.server_version >= (3, 2, 0)`, else `'uuid'`. -/
def camera_identifier (serverVersion : Int × Int × Int) : String :=
  if versionGE serverVersion (3, 2, 0) then "id" else "uuid"

/-- `UVCRemote.__init__` (`nvr.py` 56-67): stores the connection fields,
raises `Invalid('Path not supported yet')` when `path != '/'` — before
any HTTP request — and otherwise fetches the bootstrap resource with a
single GET (`_get_bootstrap`, `nvr.py` 143-144). The trace lists the
HTTP requests issued during construction. -/
def uvcRemoteInit (path : String) : Except String Unit × List HttpReq :=
  if path ≠ "/" then (.error "Path not supported yet", [])
  else (.ok (), [.get "/api/2.0/bootstrap"])

/-- Lookup in a Python dict built from a list of key/value pairs (a
`dict(...)` call or a dict comprehension): a later pair overwrites an
earlier one with the same key, so `.get(k)` finds the last binding. -/
def pyDictGet (pairs : List (String × String)) (k : String) :
    Option String :=
  pairs.reverse.lookup k

/-- One entry of the list `index` (`nvr.py` 902-913) returns. -/
structure IndexEntry where
  name : String
  uuid : String
  state : String
  managed : Bool
  id : String
deriving DecidableEq

/-- `index` (`nvr.py` 902-913): projects every non-deleted camera of the
collection GET's `data` array. -/
def index (cams : List CameraResource) : List IndexEntry :=
  (cams.filter (fun x => !x.deleted)).map
    (fun x => { name := x.name, uuid := x.uuid, state := x.state,
                managed := x.managed, id := x._id })

/-- `name_to_uuid` (`nvr.py` 1027-1039): builds the dict comprehension
`{x['name']: x['id' | 'uuid'] for x in cameras}` over `index()` — later
duplicates overwrite earlier ones — and returns `.get(name)`. -/
def name_to_uuid (serverVersion : Int × Int × Int)
    (cams : List CameraResource) (name : String) : Option String :=
  let cameras := index cams
  let cams_by_name :=
    if versionGE serverVersion (3, 2, 0) then
      cameras.map (fun x => (x.name, x.id))
    else
      cameras.map (fun x => (x.name, x.uuid))
  pyDictGet cams_by_name name

/-- The gzip test of `_uvc_request_safe` (`nvr.py` 138-139) on the
response-header dict built by `dict(resp.getheaders())`. -/
def gzipHeaderCheck (headers : List (String × String)) : Bool :=
  pyDictGet headers "content-encoding" == some "gzip" ||
  pyDictGet headers "Content-Encoding" == some "gzip"

/-- The body phase of `_uvc_request_safe` (`nvr.py` 137-141): the raw
body is inflated exactly when the gzip test fires. `inflate` abstracts
`zlib.decompress(data, 32 + zlib.MAX_WBITS)`; the returned bytes are what
`json.loads` receives. -/
def readResponseBody (headers : List (String × String))
    (inflate : List Nat → List Nat) (body : List Nat) : List Nat :=
  if gzipHeaderCheck headers then inflate body else body

/-- An alert record (spec §3;
the alert branches of `main.py`). -/
structure Alert where
  _id : String
  timestamp : Int
  alertType : String
  alertState : String
deriving DecidableEq

/-- Modelled from the spec: `get_all_alerts` is called on the client in
`main.py` but its definition is not under `src/`; per spec §4.4,
`listAlerts()` "returns all alert records", i.e. the server's current
alert table. -/
def get_all_alerts (server : List Alert) : List Alert := server

/-- Modelled from the spec: `delete_alert` is called on the client in
`main.py` but its definition is not under `src/`. Per spec §4.4 it
re-submits the alert with `alertState="deleted"`, "success is verified by
comparing the identifier in the response to the one submitted", and an
individual delete may fail mid-batch. `ok` says which submissions the
server honours; on success the alert leaves the table and the response
echoes its identifier, on failure the table is unchanged and the response
identifier does not match. Returns the new table and the identifier found
in the response's `data[0]`. -/
def delete_alert (ok : Alert → Bool) (server : List Alert)
    (alert : Alert) : List Alert × String :=
  if ok alert then
    (server.filter (fun a => a._id != alert._id), alert._id)
  else
    (server, "")

/-- The `--delete-allalerts` branch of `main` (`main.py` 325-339): every
listed alert is marked `alertState='deleted'` and submitted for deletion;
the table is then re-listed, and the report printed is
`'All alerts deleted'` when `len(data) <= 1`, else
`'<n> alerts remaining following deletion'`. Returns the re-listed table
and the report line. -/
def delete_allalerts (ok : Alert → Bool) (server : List Alert) :
    List Alert × String :=
  let data := get_all_alerts server
  let final := data.foldl
    (fun st alert =>
      let alert := { alert with alertState := "deleted" }
      (delete_alert ok st alert).1)
    server
  let data2 := get_all_alerts final
  let report :=
    if data2.length ≤ 1 then "All alerts deleted"
    else toString (data2.length) ++ " alerts remaining following deletion"
  (data2, report)

/-- The camera record a server holds after a request trace, for a server
that stores exactly the body of each PUT it receives: the body of the last
PUT in the trace, if any. -/
def lastPutBody (trace : List HttpReq) : Option CameraResource :=
  trace.foldl
    (fun acc r =>
      match r with
      | .put _ b => some b
      | .get _ => acc)
    none

/-- A concrete `ispSettings` group, for evaluating the embedding. -/
def sampleIsp : IspSettings :=
  { brightness := 50, enableExternalIr := 0, lensDistortionCorrection := 0,
    aemode := "auto", aggressiveAntiFlicker := 0, flip := 0, mirror := 0,
    icrSensitivity := 1, irLedMode := "auto", irLedLevel := 215 }

/-- A concrete `recordingSettings` group. -/
def sampleRec : RecordingSettings :=
  { fullTimeRecordEnabled := false, motionRecordEnabled := true,
    channel := 0, prePaddingSecs := 0, postPaddingSecs := 0 }

/-- A concrete `osdSettings` group. -/
def sampleOsd : OsdSettings := { enableDate := 1, enableLogo := 1 }

/-- A concrete camera record. -/
def sampleCam : CameraResource :=
  { name := "front", uuid := "uuid-1", _id := "id-1", state := "CONNECTED",
    managed := true, deleted := false, enableStatusLed := false,
    ispSettings := sampleIsp, recordingSettings := sampleRec,
    osdSettings := sampleOsd }

end Uvcclient

namespace Uvcclient

/-- C1: evaluation of the status dispatch of `_uvc_request_safe` at the
claim's inputs. 401 and 403 raise `NotAuthorized` and a non-2xx status
raises `NvrError` carrying the status code, as claimed — but of the 2xx
class only 200 passes the check: under Python 3, `resp.status / 100` is
true division, so for 201 and 204 the comparison `!= 2` is true and the
code raises `NvrError` instead of proceeding to parse the JSON body. -/
theorem c1_status_dispatch_fails_on_2xx :
    statusCheck 401 =
      .error (.notAuthorized "NVR reported authorization failure") ∧
    statusCheck 403 =
      .error (.notAuthorized "NVR reported authorization failure") ∧
    statusCheck 404 = .error (.nvrError "Request failed: 404") ∧
    statusCheck 500 = .error (.nvrError "Request failed: 500") ∧
    statusCheck 200 = .ok () ∧
    statusCheck 201 = .error (.nvrError "Request failed: 201") ∧
    statusCheck 204 = .error (.nvrError "Request failed: 204") := by
  refine ⟨?_, ?_, ?_, ?_, ?_, ?_, ?_⟩ <;> norm_num [statusCheck] <;> rfl

/-- C2: evaluation of the setters' return values against a server that
stores and echoes the PUT body exactly (`put = id`), so the updated group
does equal the intended one. `set_enablestatusled` still returns `false`,
because the source's `return data == updated` compares the whole PUT
response dict with the boolean field value; `set_brightness` returns
`None` because the function has no return statement. `set_irsensitivity`,
which does implement the claimed group comparison, returns `true` on the
same server. -/
theorem c2_setter_return_values :
    (set_enablestatusled id sampleCam "cam1" "true").1 = .ok false ∧
    (set_brightness id sampleCam "cam1" 77).1 = none ∧
    (set_irsensitivity id sampleCam "cam1" "high").1 = .ok true :=
  ⟨rfl, rfl, rfl⟩

/-- C3 counterexample: `set_irsensitivity(uuid, "extreme")` raises
`Invalid('Unknown mode')`, but the method has already issued its initial
GET of the camera resource: the request trace has length 1, not 0 as the
claim demands. -/
theorem c3_invalid_value_issues_one_get :
    (set_irsensitivity id sampleCam "cam1" "extreme").1 =
      .error "Unknown mode" ∧
    (set_irsensitivity id sampleCam "cam1" "extreme").2 =
      [.get "/api/2.0/camera/cam1"] ∧
    (set_irsensitivity id sampleCam "cam1" "extreme").2.length ≠ 0 :=
  ⟨rfl, rfl, by decide⟩

/-- C3 amended: for every embedded setter with an enum/boolean vocabulary
and every value outside that vocabulary, the call fails with `Invalid` and
sends no PUT; the read(s) that precede validation are still issued — the
one initial GET for `set_irsensitivity`, `set_externalirmode`,
`set_irledmode` and `set_enablestatusled`, and two GETs for
`set_recordmode`, whose leading `self.dump(uuid)` fetches the camera once
more before the method's own GET. -/
theorem c3_amended_invalid_value_sends_no_put
    (put : CameraResource → CameraResource) (cam : CameraResource)
    (uuid level exmode irmode rmode state : String) (chan : Option String)
    (hl : pyLower level ∉ ["low", "medium", "high"])
    (hx : pyLower exmode ∉ ["off", "on"])
    (hi : pyLower irmode ∉ ["off", "on", "auto"])
    (hr : pyLower rmode ∉ ["none", "full", "motion"])
    (hs : pyLower state ∉ ["true", "false"]) :
    set_irsensitivity put cam uuid level =
      (.error "Unknown mode", [.get (cameraUrl uuid)]) ∧
    set_externalirmode put cam uuid exmode =
      (.error "Unknown mode", [.get (cameraUrl uuid)]) ∧
    set_irledmode put cam uuid irmode =
      (.error "Unknown mode", [.get (cameraUrl uuid)]) ∧
    set_recordmode put cam uuid rmode chan =
      (.error "Unknown mode",
       [.get (cameraUrl uuid), .get (cameraUrl uuid)]) ∧
    set_enablestatusled put cam uuid state =
      (.error "Unknown mode", [.get (cameraUrl uuid)]) := by
  simp only [List.mem_cons, List.not_mem_nil, or_false, not_or]
    at hl hx hi hr hs
  obtain ⟨hl1, hl2, hl3⟩ := hl
  obtain ⟨hx1, hx2⟩ := hx
  obtain ⟨hi1, hi2, hi3⟩ := hi
  obtain ⟨hr1, hr2, hr3⟩ := hr
  obtain ⟨hs1, hs2⟩ := hs
  refine ⟨?_, ?_, ?_, ?_, ?_⟩
  · simp [set_irsensitivity, hl1, hl2, hl3]
  · simp [set_externalirmode, hx1, hx2]
  · simp [set_irledmode, hi1, hi2, hi3]
  · simp [set_recordmode, hr1, hr2, hr3]
  · simp [set_enablestatusled, hs1, hs2]

/-- C3 amended, witnessed at the spec's own example value `"extreme"`,
which lies outside every vocabulary. -/
theorem c3_amended_witness :
    set_irsensitivity id sampleCam "cam1" "extreme" =
      (.error "Unknown mode", [.get (cameraUrl "cam1")]) ∧
    set_externalirmode id sampleCam "cam1" "extreme" =
      (.error "Unknown mode", [.get (cameraUrl "cam1")]) ∧
    set_irledmode id sampleCam "cam1" "extreme" =
      (.error "Unknown mode", [.get (cameraUrl "cam1")]) ∧
    set_recordmode id sampleCam "cam1" "extreme" none =
      (.error "Unknown mode",
       [.get (cameraUrl "cam1"), .get (cameraUrl "cam1")]) ∧
    set_enablestatusled id sampleCam "cam1" "extreme" =
      (.error "Unknown mode", [.get (cameraUrl "cam1")]) :=
  c3_amended_invalid_value_sends_no_put id sampleCam "cam1" "extreme"
    "extreme" "extreme" "extreme" "extreme" none (by decide) (by decide)
    (by decide) (by decide) (by decide)

/-- C4 counterexample: the version string `"3.1"` has numeric major and
minor components and no third component. The claim says the patch then
defaults to 0, i.e. the parse yields (3, 1, 0); but `version[2]` raises
`IndexError`, which the surrounding `try` (catching only `ValueError`)
does not handle, so `server_version` crashes instead. -/
theorem c4_absent_patch_component_crashes :
    server_version "3.1" = none ∧ server_version "3.1" ≠ some (3, 1, 0) := by
  constructor <;> decide

/-- C4 amended: for every version whose dot-split has at least three
components and whose major and minor parse as integers, the parsed server
version is (major, minor, rev) with rev defaulting to 0 exactly when the
third component is non-numeric (with fewer than three components the
parse instead crashes, per the counterexample); and `camera_identifier`
is `"uuid"` for every version (3,0,r) or (3,1,r) and `"id"` for every
version at or above exactly (3,2,0). -/
theorem c4_amended_version_parse_and_gating
    (c0 c1 c2 : String) (rest : List String) (major minor : Int)
    (h0 : pyInt c0 = some major) (h1 : pyInt c1 = some minor) :
    parseVersionComponents (c0 :: c1 :: c2 :: rest) =
      some (major, minor, (pyInt c2).getD 0) ∧
    (∀ r : Int, camera_identifier (3, 0, r) = "uuid") ∧
    (∀ r : Int, camera_identifier (3, 1, r) = "uuid") ∧
    camera_identifier (3, 2, 0) = "id" ∧
    (∀ v : Int × Int × Int, versionGE v (3, 2, 0) = true →
      camera_identifier v = "id") := by
  refine ⟨?_, ?_, ?_, ?_, ?_⟩
  · simp [parseVersionComponents, h0, h1]
  · intro r; simp [camera_identifier, versionGE]
  · intro r; simp [camera_identifier, versionGE]
  · rfl
  · intro v hv; simp [camera_identifier, hv]

/-- C4 amended, witnessed on the components of `"3.2.beta"`: the
non-numeric patch defaults to 0. -/
theorem c4_amended_witness :
    parseVersionComponents ["3", "2", "beta"] =
      some (3, 2, (pyInt "beta").getD 0) :=
  (c4_amended_version_parse_and_gating "3" "2" "beta" [] 3 2 (by decide)
    (by decide)).1

/-- C5: for every vocabulary value, running the setter and then reading
the stored camera back through the paired getter returns the value that
was set. The server is assumed to store exactly the resource that was
PUT, so the stored record is `lastPutBody` of the setter's request trace;
the statement holds for every starting camera record and every PUT
response. -/
theorem c5_enum_setter_getter_roundtrip
    (put : CameraResource → CameraResource) (cam : CameraResource)
    (uuid v : String) :
    (v ∈ ["low", "medium", "high"] →
      (lastPutBody (set_irsensitivity put cam uuid v).2).map
        get_irsensitivity = some v) ∧
    (v ∈ ["on", "off", "auto"] →
      (lastPutBody (set_irledmode put cam uuid v).2).map
        get_irledmode = some v) ∧
    (v ∈ ["none", "full", "motion"] →
      (lastPutBody (set_recordmode put cam uuid v none).2).map
        get_recordmode = some v) := by
  refine ⟨fun hv => ?_, fun hv => ?_, fun hv => ?_⟩ <;> fin_cases hv <;> rfl

/-- C5, witnessed at one value of each vocabulary on a concrete camera. -/
theorem c5_enum_setter_getter_roundtrip_witness :
    (lastPutBody (set_irsensitivity id sampleCam "cam1" "medium").2).map
      get_irsensitivity = some "medium" ∧
    (lastPutBody (set_irledmode id sampleCam "cam1" "off").2).map
      get_irledmode = some "off" ∧
    (lastPutBody (set_recordmode id sampleCam "cam1" "full" none).2).map
      get_recordmode = some "full" :=
  ⟨(c5_enum_setter_getter_roundtrip id sampleCam "cam1" "medium").1
      (by decide),
   (c5_enum_setter_getter_roundtrip id sampleCam "cam1" "off").2.1
      (by decide),
   (c5_enum_setter_getter_roundtrip id sampleCam "cam1" "full").2.2
      (by decide)⟩

/-- A concrete alert whose deletion the sample server honours. -/
def alertA : Alert :=
  { _id := "a1", timestamp := 10, alertType := "motion",
    alertState := "active" }

/-- A concrete alert whose deletion the sample server refuses. -/
def alertB : Alert :=
  { _id := "a2", timestamp := 20, alertType := "motion",
    alertState := "active" }

/-- C6 counterexample: with two listed alerts of which one delete fails,
the re-list after the batch holds exactly one straggler — yet the
operation reports success ("All alerts deleted"), because the source
tests `len(data) <= 1` rather than `== 0`. The claim says success is
reported exactly when the remaining count is 0. -/
theorem c6_single_straggler_reported_as_success :
    (delete_allalerts (fun a => a._id == "a1") [alertA, alertB]).1.length
      = 1 ∧
    (delete_allalerts (fun a => a._id == "a1") [alertA, alertB]).2
      = "All alerts deleted" :=
  ⟨rfl, rfl⟩

/-- C6 amended: after applying delete to every listed alert the operation
re-lists the alerts and reports success exactly when at most one alert
remains — the source tests `len(data) <= 1`, so a single straggler is
also reported as success — and with two or more stragglers it reports
their count. -/
theorem c6_amended_delete_allalerts_report (ok : Alert → Bool)
    (server : List Alert) :
    ((delete_allalerts ok server).2 = "All alerts deleted" ↔
      (delete_allalerts ok server).1.length ≤ 1) ∧
    (1 < (delete_allalerts ok server).1.length →
      (delete_allalerts ok server).2 =
        toString ((delete_allalerts ok server).1.length) ++
          " alerts remaining following deletion") := by
  simp only [delete_allalerts]
  split
  · next h => simp [h]
  · next h =>
      refine ⟨⟨fun hc => ?_, fun hc => absurd hc h⟩, fun _ => rfl⟩
      have hlen := congrArg String.length hc
      simp only [String.length_append] at hlen
      have h36 : (" alerts remaining following deletion").length = 36 := by
        decide
      have h18 : ("All alerts deleted").length = 18 := by decide
      omega

/-- C6 amended, witnessed: all deletes succeed on a two-alert table, zero
alerts remain and success is reported; the straggler branch is witnessed
by instantiating the count implication on a server where every delete
fails and three alerts remain. -/
theorem c6_amended_witness :
    (delete_allalerts (fun _ => true) [alertA, alertB]).2 =
      "All alerts deleted" :=
  (c6_amended_delete_allalerts_report (fun _ => true) [alertA, alertB]).1.mpr
    (by decide)

/-- A camera named "garage", first in the index. -/
def camA : CameraResource :=
  { sampleCam with name := "garage", uuid := "uuid-a", _id := "id-a" }

/-- A second camera also named "garage". -/
def camB : CameraResource :=
  { sampleCam with name := "garage", uuid := "uuid-b", _id := "id-b" }

/-- C7: evaluation of `name_to_uuid` on an index with two cameras that
share the name "garage". The dict comprehension
`{x['name']: x['uuid']}` lets the later camera overwrite the earlier one,
so the lookup returns the identifier of the LAST matching camera —
`"uuid-b"`, not the first camera's `"uuid-a"` that the claim (and the
method's own docstring, "the UUID of the first camera with the same
name") promises. The same holds on 3.2.0+ with `id`. The not-found half
of the claim does hold: an unmatched name yields `None`. -/
theorem c7_name_to_uuid_returns_last_match :
    name_to_uuid (3, 1, 0) [camA, camB] "garage" = some "uuid-b" ∧
    name_to_uuid (3, 1, 0) [camA, camB] "garage" ≠ some "uuid-a" ∧
    name_to_uuid (3, 2, 0) [camA, camB] "garage" = some "id-b" ∧
    name_to_uuid (3, 1, 0) [camA, camB] "basement" = none := by
  refine ⟨rfl, ?_, rfl, rfl⟩
  decide

/-- C8: the response body is decompressed before JSON parsing exactly
when the header dict advertises gzip under either of the two
capitalizations the source checks, and a response without such a header
is handed to the JSON parser as-is. -/
theorem c8_gzip_decompression (inflate : List Nat → List Nat)
    (body : List Nat) :
    readResponseBody [("Content-Encoding", "gzip")] inflate body =
      inflate body ∧
    readResponseBody [("content-encoding", "gzip")] inflate body =
      inflate body ∧
    readResponseBody [] inflate body = body ∧
    (∀ headers, gzipHeaderCheck headers = false →
      readResponseBody headers inflate body = body) ∧
    (∀ headers, gzipHeaderCheck headers = true →
      readResponseBody headers inflate body = inflate body) := by
  refine ⟨rfl, rfl, rfl, fun h hh => ?_, fun h hh => ?_⟩ <;>
    simp [readResponseBody, hh]

/-- C8, witnessed on a header dict that names a different encoding: the
body passes through untouched. -/
theorem c8_gzip_decompression_witness :
    readResponseBody [("Content-Encoding", "identity")] (fun l => 0 :: l)
      [1, 2] = [1, 2] :=
  (c8_gzip_decompression (fun l => 0 :: l) [1, 2]).2.2.2.1
    [("Content-Encoding", "identity")] (by decide)

/-- C9: constructing `UVCRemote` with a path other than `'/'` raises
`Invalid` before any HTTP request is issued, and with path `'/'` the
constructor issues exactly one request — the bootstrap GET. -/
theorem c9_init_path_gate (path : String) :
    (path ≠ "/" →
      uvcRemoteInit path = (.error "Path not supported yet", [])) ∧
    (path = "/" →
      uvcRemoteInit path = (.ok (), [.get "/api/2.0/bootstrap"])) := by
  constructor <;> intro h <;> simp [uvcRemoteInit, h]

/-- C9, witnessed at a rejected path and at the accepted root path. -/
theorem c9_init_path_gate_witness :
    uvcRemoteInit "/video" = (.error "Path not supported yet", []) ∧
    uvcRemoteInit "/" = (.ok (), [.get "/api/2.0/bootstrap"]) :=
  ⟨(c9_init_path_gate "/video").1 (by decide),
   (c9_init_path_gate "/").2 rfl⟩

/-- C10: every enum-decoding getter is total over raw server values: for
every camera record — whatever the raw field values — the decoded result
lies in the getter's fixed finite vocabulary, with `'unknown'` for any
raw value outside the decode table. -/
theorem c10_enum_getters_total (cam : CameraResource) :
    get_externalirmode cam ∈ ["off", "on", "unknown"] ∧
    get_showosddatemode cam ∈ ["off", "on", "unknown"] ∧
    get_showosdlogomode cam ∈ ["off", "on", "unknown"] ∧
    get_lensdistortioncorrectionmode cam ∈ ["off", "on", "unknown"] ∧
    get_aemode cam ∈
      ["normal", "anti-flicker for 50hz light",
       "anti-flicker for 60hz light", "unknown"] ∧
    get_aggressiveantiflicker cam ∈ ["disabled", "enabled", "unknown"] ∧
    get_orientation cam ∈
      ["normal", "flip horizontally", "flip vertically",
       "flip both horizontally and vertically", "unknown"] ∧
    get_irsensitivity cam ∈ ["low", "medium", "high", "unknown"] ∧
    get_irledmode cam ∈ ["auto", "off", "on", "unknown"] := by
  refine ⟨?_, ?_, ?_, ?_, ?_, ?_, ?_, ?_, ?_⟩ <;>
    simp only [get_externalirmode, get_showosddatemode, get_showosdlogomode,
      get_lensdistortioncorrectionmode, get_aemode, get_aggressiveantiflicker,
      get_orientation, get_irsensitivity, get_irledmode] <;>
    (repeat' split) <;> simp

end Uvcclient
